import Mathlib

/-!
Verification development for the `dji-log-parser-kotlin-bind` binding layer
(`src/dji-log-parser-bindings/src/lib.rs`).

The repository under verification is a thin binding crate around an external
log-parsing library (`dji_log_parser`).  The binding code (error enum, wrapper
records, enum conversions, `u32_to_feature_point`, and the `DJILogWrapper`
methods) is embedded here definition by definition from the source.  The
underlying library is not part of the repository sources; where its behaviour
decides a claim it is modelled from the specification (`spec.md`), and each
such definition carries a doc comment starting with `Modelled from the spec:`.

Machine integers are modelled as `Nat` (unsigned) or `Int` (signed / raw
scalar values); floating-point telemetry fields are never computed with, only
copied, so they are modelled as raw `Int` scalars.  Rust `Vec<u8>` buffers are
`List Nat`.
-/

/-- The binding's error enum `DJIError` (lib.rs lines 13-22). -/
inductive DJIError where
  | ParseError
  | KeychainError
  | RecordError
  | FrameError
  deriving DecidableEq, Repr

/-- The binding's `ProductTypeWrapper` enum (lib.rs lines 28-46). -/
inductive ProductTypeWrapper where
  | None
  | Inspire1
  | Phantom3Standard
  | Phantom3Advanced
  | Phantom3Pro
  | OSMO
  | Matrice100
  | Phantom4
  | LB2
  | Inspire1Pro
  | A3
  | Matrice600
  | Phantom34K
  | MavicPro
  | ZenmuseXT
  | Unknown
  deriving DecidableEq, Repr

/-- The binding's `PlatformWrapper` enum (lib.rs lines 50-58). -/
inductive PlatformWrapper where
  | IOS
  | Android
  | DJIFly
  | Windows
  | Mac
  | Linux
  | Unknown
  deriving DecidableEq, Repr

/-- Modelled from the spec: the external library's `ProductType` is an
open-ended device-model enumeration; the binding names fifteen of its
variants and the spec guarantees an `Unknown` fallback for the rest.  The
open end is modelled by the catch-all constructor `other` carrying the wire
code. -/
inductive ProductType where
  | None
  | Inspire1
  | Phantom3Standard
  | Phantom3Advanced
  | Phantom3Pro
  | OSMO
  | Matrice100
  | Phantom4
  | LB2
  | Inspire1Pro
  | A3
  | Matrice600
  | Phantom34K
  | MavicPro
  | ZenmuseXT
  | other (code : Nat)
  deriving DecidableEq, Repr

/-- Modelled from the spec: the external library's `Platform` enumeration
(originating app/OS: iOS, Android, DJI-Fly, Windows, Mac, Linux, Unknown). -/
inductive Platform where
  | IOS
  | Android
  | DJIFly
  | Windows
  | Mac
  | Linux
  | unknown
  deriving DecidableEq, Repr

/-- The binding's `impl From<ProductType> for ProductTypeWrapper`
(lib.rs lines 61-82): the fifteen named variants map across, everything
else falls to the `_ => ProductTypeWrapper::Unknown` arm. -/
def productTypeToWrapper : ProductType → ProductTypeWrapper
  | .None => .None
  | .Inspire1 => .Inspire1
  | .Phantom3Standard => .Phantom3Standard
  | .Phantom3Advanced => .Phantom3Advanced
  | .Phantom3Pro => .Phantom3Pro
  | .OSMO => .OSMO
  | .Matrice100 => .Matrice100
  | .Phantom4 => .Phantom4
  | .LB2 => .LB2
  | .Inspire1Pro => .Inspire1Pro
  | .A3 => .A3
  | .Matrice600 => .Matrice600
  | .Phantom34K => .Phantom34K
  | .MavicPro => .MavicPro
  | .ZenmuseXT => .ZenmuseXT
  | .other _ => .Unknown

/-- The binding's `impl From<Platform> for PlatformWrapper`
(lib.rs lines 84-96): six named variants map across, everything else falls
to the `_ => PlatformWrapper::Unknown` arm. -/
def platformToWrapper : Platform → PlatformWrapper
  | .IOS => .IOS
  | .Android => .Android
  | .DJIFly => .DJIFly
  | .Windows => .Windows
  | .Mac => .Mac
  | .Linux => .Linux
  | .unknown => .Unknown

/-- Modelled from the spec: the external library's closed `FeaturePoint`
enumeration of fifteen feature-area tags. -/
inductive FeaturePoint where
  | BaseFeature
  | VisionFeature
  | WaypointFeature
  | AgricultureFeature
  | AirLinkFeature
  | AfterSalesFeature
  | DJIFlyCustomFeature
  | PlaintextFeature
  | FlightHubFeature
  | GimbalFeature
  | RCFeature
  | CameraFeature
  | BatteryFeature
  | FlySafeFeature
  | SecurityFeature
  deriving DecidableEq, Repr

/-- The binding's helper `u32_to_feature_point` (lib.rs lines 199-218):
wire codes 1 through 15 select the fifteen feature variants in order, every
other value falls to the default arm `_ => FeaturePoint::BaseFeature`. -/
def u32_to_feature_point : Nat → FeaturePoint
  | 1 => .BaseFeature
  | 2 => .VisionFeature
  | 3 => .WaypointFeature
  | 4 => .AgricultureFeature
  | 5 => .AirLinkFeature
  | 6 => .AfterSalesFeature
  | 7 => .DJIFlyCustomFeature
  | 8 => .PlaintextFeature
  | 9 => .FlightHubFeature
  | 10 => .GimbalFeature
  | 11 => .RCFeature
  | 12 => .CameraFeature
  | 13 => .BatteryFeature
  | 14 => .FlySafeFeature
  | 15 => .SecurityFeature
  | _ => .BaseFeature

/-- Modelled from the spec: the wire code of each feature-area tag, the
discriminant used by the Rust `as u32` cast on `FeaturePoint`.  It inverts
`u32_to_feature_point` on 1..15. -/
def FeaturePoint.code : FeaturePoint → Nat
  | .BaseFeature => 1
  | .VisionFeature => 2
  | .WaypointFeature => 3
  | .AgricultureFeature => 4
  | .AirLinkFeature => 5
  | .AfterSalesFeature => 6
  | .DJIFlyCustomFeature => 7
  | .PlaintextFeature => 8
  | .FlightHubFeature => 9
  | .GimbalFeature => 10
  | .RCFeature => 11
  | .CameraFeature => 12
  | .BatteryFeature => 13
  | .FlySafeFeature => 14
  | .SecurityFeature => 15

/-- Modelled from the spec: the external library's `Details` value — flat
flight-summary metadata parsed eagerly at construction.  Floating-point
fields are raw scalars (`Int`), never computed with here. -/
structure Details where
  sub_street : String
  street : String
  city : String
  area : String
  is_favorite : Nat
  is_new : Nat
  needs_upload : Nat
  record_line_count : Int
  detail_info_checksum : Int
  start_time : String
  longitude : Int
  latitude : Int
  total_distance : Int
  total_time : Int
  max_height : Int
  max_horizontal_speed : Int
  max_vertical_speed : Int
  aircraft_name : String
  aircraft_sn : String
  camera_sn : String
  rc_sn : String
  battery_sn : String
  app_platform : Platform
  app_version : String
  product_type : ProductType
  deriving DecidableEq, Repr

/-- The binding's `DetailsWrapper` record (lib.rs lines 99-125). -/
structure DetailsWrapper where
  sub_street : String
  street : String
  city : String
  area : String
  is_favorite : Nat
  is_new : Nat
  needs_upload : Nat
  record_line_count : Int
  detail_info_checksum : Int
  start_time : String
  longitude : Int
  latitude : Int
  total_distance : Int
  total_time : Int
  max_height : Int
  max_horizontal_speed : Int
  max_vertical_speed : Int
  aircraft_name : String
  aircraft_sn : String
  camera_sn : String
  rc_sn : String
  battery_sn : String
  app_platform : PlatformWrapper
  app_version : String
  product_type : ProductTypeWrapper
  deriving DecidableEq, Repr

/-- The binding's `KeychainFeaturePointWrapper` record (lib.rs lines 128-132):
the feature point travels as its `u32` wire code. -/
structure KeychainFeaturePointWrapper where
  feature_point : Nat
  aes_key : String
  aes_iv : String
  deriving DecidableEq, Repr

/-- Modelled from the spec: the external library's plaintext
`KeychainFeaturePoint` triple (feature-area tag, AES key, AES IV). -/
structure KeychainFeaturePoint where
  feature_point : FeaturePoint
  aes_key : String
  aes_iv : String
  deriving DecidableEq, Repr

/-- Modelled from the spec: one ciphertext entry of the external library's
`KeychainsRequest`; the ciphertext is a byte string (`List Nat`). -/
structure EncodedKeychainFeaturePoint where
  feature_point : FeaturePoint
  aes_ciphertext : List Nat
  deriving DecidableEq, Repr

/-- The binding's `EncodedKeychainFeaturePointWrapper` record
(lib.rs lines 135-138). -/
structure EncodedKeychainFeaturePointWrapper where
  feature_point : Nat
  aes_ciphertext : List Nat
  deriving DecidableEq, Repr

/-- Modelled from the spec: the external library's `KeychainsRequest` —
version, department code and grouped ciphertext entries. -/
structure KeychainsRequest where
  version : Nat
  department : Nat
  keychains : List (List EncodedKeychainFeaturePoint)
  deriving DecidableEq, Repr

/-- The binding's `KeychainsRequestWrapper` record (lib.rs lines 141-145). -/
structure KeychainsRequestWrapper where
  version : Nat
  department : Nat
  keychains : List (List EncodedKeychainFeaturePointWrapper)
  deriving DecidableEq, Repr

/-- The binding's `RecordWrapper` record (lib.rs lines 148-152). -/
structure RecordWrapper where
  record_type : String
  timestamp : Nat
  data : List Nat
  deriving DecidableEq, Repr

/-- Modelled from the spec: one decoded record — a tagged variant over
device-subsystem kinds, with a catch-all opaque arm for unrecognized type
tags.  The payload bytes carried by each arm are what the per-category
field decoders of the normalizer consume. -/
inductive Record where
  | osd (payload : List Nat)
  | gimbal (payload : List Nat)
  | camera (payload : List Nat)
  | rc (payload : List Nat)
  | battery (payload : List Nat)
  | home (payload : List Nat)
  | keyStorage (payload : List Nat)
  | unknown (tag : Nat) (payload : List Nat)
  deriving DecidableEq, Repr

/-- Modelled from the spec: OSD (flight-state) category of a normalized
frame.  Scalar telemetry values are raw `Int` scalars. -/
structure OsdData where
  fly_time : Int := 0
  latitude : Int := 0
  longitude : Int := 0
  altitude : Int := 0
  height : Int := 0
  x_speed : Int := 0
  y_speed : Int := 0
  z_speed : Int := 0
  pitch : Int := 0
  roll : Int := 0
  yaw : Int := 0
  gps_num : Nat := 0
  deriving DecidableEq, Repr

/-- Modelled from the spec: gimbal category of a normalized frame. -/
structure GimbalData where
  pitch : Int := 0
  roll : Int := 0
  yaw : Int := 0
  deriving DecidableEq, Repr

/-- Modelled from the spec: camera category of a normalized frame. -/
structure CameraData where
  is_video : Bool := false
  is_photo : Bool := false
  deriving DecidableEq, Repr

/-- Modelled from the spec: RC category of a normalized frame — the four
raw stick-axis values, wider than 16 bits in the external library, hence
`Int`. -/
structure RcData where
  aileron : Int := 0
  elevator : Int := 0
  throttle : Int := 0
  rudder : Int := 0
  deriving DecidableEq, Repr

/-- Modelled from the spec: battery category of a normalized frame, with
per-cell voltages as an ordered sequence. -/
structure BatteryData where
  charge_level : Nat := 0
  voltage : Int := 0
  current : Int := 0
  temperature : Int := 0
  cell_voltages : List Int := []
  deriving DecidableEq, Repr

/-- Modelled from the spec: home-point category of a normalized frame. -/
structure HomeData where
  latitude : Int := 0
  longitude : Int := 0
  altitude : Int := 0
  deriving DecidableEq, Repr

/-- Modelled from the spec: one normalized `Frame` snapshot combining the
latest state of every telemetry subsystem. -/
structure Frame where
  osd : OsdData := {}
  gimbal : GimbalData := {}
  camera : CameraData := {}
  rc : RcData := {}
  battery : BatteryData := {}
  home : HomeData := {}
  deriving DecidableEq, Repr

/-- The binding's `FrameWrapper` record (lib.rs lines 155-196). -/
structure FrameWrapper where
  fly_time : Int
  latitude : Int
  longitude : Int
  altitude : Int
  height : Int
  x_speed : Int
  y_speed : Int
  z_speed : Int
  pitch : Int
  roll : Int
  yaw : Int
  gps_num : Nat
  gimbal_pitch : Int
  gimbal_roll : Int
  gimbal_yaw : Int
  is_recording : Bool
  is_taking_photo : Bool
  aileron : Nat
  elevator : Nat
  throttle : Nat
  rudder : Nat
  battery_percent : Nat
  battery_voltage : Int
  battery_current : Int
  battery_temperature : Int
  cell_voltages : List Int
  home_latitude : Int
  home_longitude : Int
  home_altitude : Int
  deriving DecidableEq

/-- Modelled from the spec: the record-section walk of the external
library.  Each record begins with a type tag and a length byte followed by
that many payload bytes; a record whose declared length exceeds the
remaining bytes is a structural bounds violation and fails the whole walk.
The walk only frames records; dispatch happens in a second pass. -/
def frameRecordsAux : Nat → List Nat → Except Unit (List (Nat × List Nat))
  | _, [] => .ok []
  | 0, _ :: _ => .error ()
  | _ + 1, [_] => .error ()
  | fuel + 1, tag :: len :: rest =>
    if rest.length < len then .error ()
    else
      match frameRecordsAux fuel (rest.drop len) with
      | .error e => .error e
      | .ok tl => .ok ((tag, rest.take len) :: tl)

/-- Modelled from the spec: the framing walk at its natural fuel — every
record consumes at least two bytes, so the buffer length bounds the
number of steps and the walk always terminates. -/
def frameRecords (bytes : List Nat) : Except Unit (List (Nat × List Nat)) :=
  frameRecordsAux bytes.length bytes

/-- Modelled from the spec: tags of the plain (non-encrypted) known record
categories; tag 7 is the KeyStorage category. -/
def plainRecord (tag : Nat) (payload : List Nat) : Option Record :=
  if tag = 1 then some (.osd payload)
  else if tag = 2 then some (.gimbal payload)
  else if tag = 3 then some (.camera payload)
  else if tag = 4 then some (.rc payload)
  else if tag = 5 then some (.battery payload)
  else if tag = 6 then some (.home payload)
  else if tag = 7 then some (.keyStorage payload)
  else none

/-- Modelled from the spec: which type tags are flagged as encrypted
record types. -/
def isEncryptedTag (tag : Nat) : Bool := 17 ≤ tag && tag ≤ 22

/-- Modelled from the spec: AES-CBC decryption of an encrypted payload is
out of the core's scope beyond ciphertext in, plaintext out; it is
modelled as the identity on the ciphertext bytes. -/
def decryptPayload (_key _iv : String) (ct : List Nat) : List Nat := ct

/-- Modelled from the spec: the decoded form of an encrypted record — the
encrypted tags 17 through 22 mirror the six plain telemetry categories. -/
def decryptedRecord (tag : Nat) (p : List Nat) : Record :=
  if tag = 17 then .osd p
  else if tag = 18 then .gimbal p
  else if tag = 19 then .camera p
  else if tag = 20 then .rc p
  else if tag = 21 then .battery p
  else if tag = 22 then .home p
  else .unknown tag p

/-- Modelled from the spec: decoding one encrypted record.  The first
payload byte declares the feature tag; the keychain group covering the
record's frame position is looked up by index and the entry matching the
feature tag supplies key and IV.  Without keychains or without a matching
entry the record is skipped (`none`). -/
def decodeEncrypted (ks : Option (List (List KeychainFeaturePoint))) (g : Nat)
    (tag : Nat) (payload : List Nat) : Option Record :=
  match ks, payload with
  | none, _ => none
  | some _, [] => none
  | some chains, fp :: ct =>
    ((chains.getD g []).find? (fun e => e.feature_point.code = fp)).map
      (fun entry => decryptedRecord tag (decryptPayload entry.aes_key entry.aes_iv ct))

/-- Modelled from the spec: dispatch of the framed record sequence.  Known
plain tags decode in place; KeyStorage records advance the keychain group
index; encrypted tags decode through the keychain or are skipped;
unrecognized tags yield the generic opaque variant. -/
def decodeFramed (ks : Option (List (List KeychainFeaturePoint))) :
    Nat → List (Nat × List Nat) → List Record
  | _, [] => []
  | g, (tag, payload) :: tl =>
    let g' := if tag = 7 then g + 1 else g
    match plainRecord tag payload with
    | some r => r :: decodeFramed ks g' tl
    | none =>
      if isEncryptedTag tag then
        match decodeEncrypted ks g tag payload with
        | some r => r :: decodeFramed ks g' tl
        | none => decodeFramed ks g' tl
      else .unknown tag payload :: decodeFramed ks g' tl

/-- Modelled from the spec: the ciphertext entries of one KeyStorage
payload, framed the same way as records (feature code, length,
ciphertext bytes); a truncated entry is a malformed keychain. -/
def parseGroup (bytes : List Nat) : Except Unit (List EncodedKeychainFeaturePoint) :=
  (frameRecords bytes).map (List.map fun fr =>
    { feature_point := u32_to_feature_point fr.1, aes_ciphertext := fr.2 })

/-- Modelled from the spec: the payloads of the KeyStorage-tagged records
of a framed record section, in order. -/
def keyStoragePayloads (framed : List (Nat × List Nat)) : List (List Nat) :=
  (framed.filter (fun fr => fr.1 = 7)).map (fun fr => fr.2)

/-- Modelled from the spec: the external library's `Log` root value — the
format version, the eagerly parsed details, and the record-section bytes
kept for on-demand decoding. -/
structure DJILog where
  version : Nat
  details : Details
  recordBytes : List Nat
  deriving DecidableEq, Repr

/-- Modelled from the spec: contract A of the keychain subsystem — scan
the record section for KeyStorage records only, parse each payload into a
ciphertext group, and fail (`KeychainError`) when none are present or one
is malformed. -/
def DJILog.keychains_request (log : DJILog) : Except Unit KeychainsRequest :=
  match frameRecords log.recordBytes with
  | .error _ => .error ()
  | .ok framed =>
    match keyStoragePayloads framed with
    | [] => .error ()
    | _ :: _ =>
      match (keyStoragePayloads framed).mapM parseGroup with
      | .error _ => .error ()
      | .ok groups => .ok { version := log.version, department := 1, keychains := groups }

/-- Modelled from the spec: the record-decoder contract
decode_records(log, keychains?) — frame the record section, then dispatch
each framed record. -/
def DJILog.records (log : DJILog)
    (keychains : Option (List (List KeychainFeaturePoint))) :
    Except Unit (List Record) :=
  (frameRecords log.recordBytes).map (decodeFramed keychains 0)

/-- Modelled from the spec: little-endian 16-bit read at an offset of a
payload, reinterpreted as a signed two's-complement scalar. -/
def i16At (p : List Nat) (i : Nat) : Int :=
  let n := p.getD i 0 % 256 + 256 * (p.getD (i + 1) 0 % 256)
  if n < 32768 then (n : Int) else (n : Int) - 65536

/-- Modelled from the spec: field decoding of an OSD payload. -/
def osdOfPayload (p : List Nat) : OsdData :=
  { fly_time := p.getD 0 0, latitude := i16At p 1, longitude := i16At p 3,
    altitude := i16At p 5, height := i16At p 7, x_speed := i16At p 9,
    y_speed := i16At p 11, z_speed := i16At p 13, pitch := i16At p 15,
    roll := i16At p 17, yaw := i16At p 19, gps_num := p.getD 21 0 }

/-- Modelled from the spec: field decoding of a gimbal payload. -/
def gimbalOfPayload (p : List Nat) : GimbalData :=
  { pitch := i16At p 0, roll := i16At p 2, yaw := i16At p 4 }

/-- Modelled from the spec: field decoding of a camera payload. -/
def cameraOfPayload (p : List Nat) : CameraData :=
  { is_video := p.getD 0 0 ≠ 0, is_photo := p.getD 1 0 ≠ 0 }

/-- Modelled from the spec: field decoding of an RC payload — the four
raw stick-axis values. -/
def rcOfPayload (p : List Nat) : RcData :=
  { aileron := i16At p 0, elevator := i16At p 2,
    throttle := i16At p 4, rudder := i16At p 6 }

/-- Modelled from the spec: field decoding of a battery payload; the bytes
past the fixed scalar fields are the per-cell voltage sequence. -/
def batteryOfPayload (p : List Nat) : BatteryData :=
  { charge_level := p.getD 0 0, voltage := i16At p 1, current := i16At p 3,
    temperature := i16At p 5, cell_voltages := (p.drop 7).map (fun b => (b : Int)) }

/-- Modelled from the spec: field decoding of a home-point payload. -/
def homeOfPayload (p : List Nat) : HomeData :=
  { latitude := i16At p 0, longitude := i16At p 2, altitude := i16At p 4 }

/-- Modelled from the spec: the frame-normalization fold — a running
current-state frame per subsystem category, seeded with defaults, updated
in place by each subsystem record; one frame is emitted per OSD record. -/
def normalizeGo (st : Frame) : List Record → List Frame
  | [] => []
  | r :: rest =>
    match r with
    | .osd p =>
      let st' := { st with osd := osdOfPayload p }
      st' :: normalizeGo st' rest
    | .gimbal p => normalizeGo { st with gimbal := gimbalOfPayload p } rest
    | .camera p => normalizeGo { st with camera := cameraOfPayload p } rest
    | .rc p => normalizeGo { st with rc := rcOfPayload p } rest
    | .battery p => normalizeGo { st with battery := batteryOfPayload p } rest
    | .home p => normalizeGo { st with home := homeOfPayload p } rest
    | .keyStorage _ => normalizeGo st rest
    | .unknown _ _ => normalizeGo st rest

/-- Modelled from the spec: normalize(records) -> [Frame], a pure total
function of the decoded record sequence. -/
def normalizeRecords (rs : List Record) : List Frame := normalizeGo {} rs

/-- Modelled from the spec: the frame-sequence contract — decode the
records, then normalize them; a record-decoding failure propagates. -/
def DJILog.frames (log : DJILog)
    (keychains : Option (List (List KeychainFeaturePoint))) :
    Except Unit (List Frame) :=
  (log.records keychains).map normalizeRecords

/-- Modelled from the spec: total decoding of the originating-platform
wire code with Unknown fallback. -/
def platformOfCode : Nat → Platform
  | 1 => .IOS
  | 2 => .Android
  | 3 => .DJIFly
  | 4 => .Windows
  | 5 => .Mac
  | 6 => .Linux
  | _ => .unknown

/-- Modelled from the spec: total decoding of the device-model wire code,
open-ended with a default for unrecognized codes. -/
def productTypeOfCode : Nat → ProductType
  | 0 => .None
  | 1 => .Inspire1
  | 2 => .Phantom3Standard
  | 3 => .Phantom3Advanced
  | 4 => .Phantom3Pro
  | 5 => .OSMO
  | 6 => .Matrice100
  | 7 => .Phantom4
  | 8 => .LB2
  | 9 => .Inspire1Pro
  | 10 => .A3
  | 11 => .Matrice600
  | 12 => .Phantom34K
  | 13 => .MavicPro
  | 14 => .ZenmuseXT
  | n => .other n

/-- Modelled from the spec: Info-block decoding into `Details`.  The exact
field layout is internal to the external library; what matters here is
that it is a total function of the Info-block bytes with total enum
decoding. -/
def parseInfo (b : List Nat) : Details :=
  { sub_street := "", street := "", city := "", area := "",
    is_favorite := b.getD 0 0, is_new := b.getD 1 0, needs_upload := b.getD 2 0,
    record_line_count := b.getD 3 0, detail_info_checksum := b.getD 4 0,
    start_time := "", longitude := i16At b 5, latitude := i16At b 7,
    total_distance := i16At b 9, total_time := i16At b 11, max_height := i16At b 13,
    max_horizontal_speed := i16At b 15, max_vertical_speed := i16At b 17,
    aircraft_name := "", aircraft_sn := "", camera_sn := "", rc_sn := "",
    battery_sn := "",
    app_platform := platformOfCode (b.getD 19 0),
    app_version := "",
    product_type := productTypeOfCode (b.getD 20 0) }

/-- Modelled from the spec: the minimum size of the fixed Prefix block
(magic byte, version byte, Info offset and length, record-section offset
and length). -/
def minPrefixSize : Nat := 6

/-- Modelled from the spec: the magic signature byte opening a valid
container. -/
def prefixMagic : Nat := 77

/-- Modelled from the spec: the container-parser contract
parse(bytes) -> Log | ParseError.  Fails when the buffer is shorter than
the minimum Prefix size, on magic mismatch, or when an offset/length field
points outside the buffer; otherwise eagerly parses the Info block into
`Details` and slices out the record section. -/
def DJILog.from_bytes (bytes : List Nat) : Except Unit DJILog :=
  if bytes.length < minPrefixSize then .error ()
  else if bytes.getD 0 0 ≠ prefixMagic then .error ()
  else
    let infoOff := bytes.getD 2 0
    let infoLen := bytes.getD 3 0
    let recOff := bytes.getD 4 0
    let recLen := bytes.getD 5 0
    if bytes.length < infoOff + infoLen ∨ bytes.length < recOff + recLen then .error ()
    else
      .ok { version := bytes.getD 1 0,
            details := parseInfo ((bytes.drop infoOff).take infoLen),
            recordBytes := (bytes.drop recOff).take recLen }

/-- The binding's `DJILogWrapper` object (lib.rs lines 221-224), holding
the parsed inner log. -/
structure DJILogWrapper where
  inner : DJILog
  deriving DecidableEq, Repr

/-- `DJILogWrapper::from_bytes` (lib.rs lines 233-237): the inner
constructor's result with every inner error collapsed to
`DJIError::ParseError`. -/
def DJILogWrapper.from_bytes (bytes : List Nat) : Except DJIError DJILogWrapper :=
  match DJILog.from_bytes bytes with
  | .ok log => .ok { inner := log }
  | .error _ => .error .ParseError

/-- `DJILogWrapper::version` (lib.rs lines 240-242). -/
def DJILogWrapper.version (self : DJILogWrapper) : Nat :=
  self.inner.version

/-- `DJILogWrapper::details` (lib.rs lines 245-274): a field-by-field copy
of the inner details with the two enum conversions applied. -/
def DJILogWrapper.details (self : DJILogWrapper) : DetailsWrapper :=
  let d := self.inner.details
  { sub_street := d.sub_street, street := d.street, city := d.city, area := d.area,
    is_favorite := d.is_favorite, is_new := d.is_new, needs_upload := d.needs_upload,
    record_line_count := d.record_line_count,
    detail_info_checksum := d.detail_info_checksum,
    start_time := d.start_time, longitude := d.longitude, latitude := d.latitude,
    total_distance := d.total_distance, total_time := d.total_time,
    max_height := d.max_height, max_horizontal_speed := d.max_horizontal_speed,
    max_vertical_speed := d.max_vertical_speed, aircraft_name := d.aircraft_name,
    aircraft_sn := d.aircraft_sn, camera_sn := d.camera_sn, rc_sn := d.rc_sn,
    battery_sn := d.battery_sn,
    app_platform := platformToWrapper d.app_platform,
    app_version := d.app_version,
    product_type := productTypeToWrapper d.product_type }

/-- The per-point conversion inside `DJILogWrapper::keychains_request`
(lib.rs lines 288-291): the feature point becomes its `u32` wire code, the
ciphertext moves across unchanged. -/
def encodedPointToWrapper (point : EncodedKeychainFeaturePoint) :
    EncodedKeychainFeaturePointWrapper :=
  { feature_point := point.feature_point.code,
    aes_ciphertext := point.aes_ciphertext }

/-- `DJILogWrapper::keychains_request` (lib.rs lines 277-302): the inner
request with every error collapsed to `DJIError::KeychainError` and each
group mapped pointwise through `encodedPointToWrapper`; version and
department are copied across. -/
def DJILogWrapper.keychains_request (self : DJILogWrapper) :
    Except DJIError KeychainsRequestWrapper :=
  match self.inner.keychains_request with
  | .error _ => .error .KeychainError
  | .ok req =>
    .ok { version := req.version, department := req.department,
          keychains := req.keychains.map (List.map encodedPointToWrapper) }

/-- The per-point conversion of caller-supplied keychains used by
`records` and `frames` (lib.rs lines 341-348 and 386-393): the wire code
goes through `u32_to_feature_point`, key and IV move across unchanged. -/
def keychainPointFromWrapper (point : KeychainFeaturePointWrapper) :
    KeychainFeaturePoint :=
  { feature_point := u32_to_feature_point point.feature_point,
    aes_key := point.aes_key, aes_iv := point.aes_iv }

/-- The keychain-argument conversion loops of `records` and `frames`
(lib.rs lines 336-355 and 381-400), a groupwise map. -/
def convertKeychains (keychains : Option (List (List KeychainFeaturePointWrapper))) :
    Option (List (List KeychainFeaturePoint)) :=
  keychains.map (List.map (List.map keychainPointFromWrapper))

/-- Modelled from the spec: the Rust `Debug` rendering of a decoded
record, the string the binding exposes as `record_type`. -/
def recordDebug : Record → String
  | .osd p => "Osd " ++ toString p
  | .gimbal p => "Gimbal " ++ toString p
  | .camera p => "Camera " ++ toString p
  | .rc p => "RC " ++ toString p
  | .battery p => "Battery " ++ toString p
  | .home p => "Home " ++ toString p
  | .keyStorage p => "KeyStorage " ++ toString p
  | .unknown t p => "Unknown " ++ toString t ++ " " ++ toString p

/-- The per-record conversion inside `DJILogWrapper::records`
(lib.rs lines 363-370): only the Debug string is kept, timestamp and data
are hardcoded to zero and empty. -/
def recordToWrapper (record : Record) : RecordWrapper :=
  { record_type := recordDebug record, timestamp := 0, data := [] }

/-- `DJILogWrapper::records` (lib.rs lines 331-373): converts the optional
keychain argument, calls the inner decoder, collapses every inner error to
`DJIError::RecordError`, and maps each record through `recordToWrapper`. -/
def DJILogWrapper.records (self : DJILogWrapper)
    (keychains : Option (List (List KeychainFeaturePointWrapper))) :
    Except DJIError (List RecordWrapper) :=
  match self.inner.records (convertKeychains keychains) with
  | .error _ => .error .RecordError
  | .ok rs => .ok (rs.map recordToWrapper)

/-- The Rust unsigned narrowing cast `as u16` (lib.rs lines 441-444): the
value reduced modulo 2^16. -/
def u16cast (i : Int) : Nat := (i % 65536).toNat

/-- The per-frame conversion inside `DJILogWrapper::frames`
(lib.rs lines 408-458): a field-by-field copy, with the four RC stick-axis
values narrowed by `as u16` and the cell-voltage sequence copied verbatim
(the source's emptiness test is the identity on both branches). -/
def frameToWrapper (frame : Frame) : FrameWrapper :=
  let cell_voltages :=
    if frame.battery.cell_voltages.isEmpty then [] else frame.battery.cell_voltages
  { fly_time := frame.osd.fly_time, latitude := frame.osd.latitude,
    longitude := frame.osd.longitude, altitude := frame.osd.altitude,
    height := frame.osd.height, x_speed := frame.osd.x_speed,
    y_speed := frame.osd.y_speed, z_speed := frame.osd.z_speed,
    pitch := frame.osd.pitch, roll := frame.osd.roll, yaw := frame.osd.yaw,
    gps_num := frame.osd.gps_num,
    gimbal_pitch := frame.gimbal.pitch, gimbal_roll := frame.gimbal.roll,
    gimbal_yaw := frame.gimbal.yaw,
    is_recording := frame.camera.is_video, is_taking_photo := frame.camera.is_photo,
    aileron := u16cast frame.rc.aileron, elevator := u16cast frame.rc.elevator,
    throttle := u16cast frame.rc.throttle, rudder := u16cast frame.rc.rudder,
    battery_percent := frame.battery.charge_level,
    battery_voltage := frame.battery.voltage,
    battery_current := frame.battery.current,
    battery_temperature := frame.battery.temperature,
    cell_voltages := cell_voltages,
    home_latitude := frame.home.latitude, home_longitude := frame.home.longitude,
    home_altitude := frame.home.altitude }

/-- `DJILogWrapper::frames` (lib.rs lines 376-461): converts the optional
keychain argument, calls the inner frame pipeline, collapses every inner
error to `DJIError::FrameError`, and maps each frame through
`frameToWrapper`. -/
def DJILogWrapper.frames (self : DJILogWrapper)
    (keychains : Option (List (List KeychainFeaturePointWrapper))) :
    Except DJIError (List FrameWrapper) :=
  match self.inner.frames (convertKeychains keychains) with
  | .error _ => .error .FrameError
  | .ok fs => .ok (fs.map frameToWrapper)

/-- A concrete record section used by witnesses: one RC record, one
KeyStorage record with a single two-byte ciphertext entry, one OSD record
(the frame tick) and one unrecognized record. -/
def sampleRecordBytes : List Nat :=
  [4, 8] ++ [10, 0, 20, 0, 30, 0, 40, 0] ++ [7, 4] ++ [1, 2, 9, 9] ++ [1, 0] ++ [99, 1] ++ [5]

/-- A concrete well-formed log over `sampleRecordBytes`. -/
def sampleLog : DJILog :=
  { version := 13, details := parseInfo [], recordBytes := sampleRecordBytes }

/-- The wrapper around `sampleLog`. -/
def sampleWrapper : DJILogWrapper := { inner := sampleLog }

/-- The keychains request embedded in `sampleLog`. -/
def sampleRequest : KeychainsRequest :=
  { version := 13, department := 1,
    keychains := [[{ feature_point := .BaseFeature, aes_ciphertext := [9, 9] }]] }

/-- A concrete record section with a battery record carrying three cell
voltages, then an OSD tick. -/
def batteryRecordBytes : List Nat :=
  [5, 10] ++ [90, 1, 0, 2, 0, 3, 0, 81, 82, 83] ++ [1, 0]

/-- A concrete well-formed log over `batteryRecordBytes`. -/
def batteryLog : DJILog :=
  { version := 13, details := parseInfo [], recordBytes := batteryRecordBytes }

/-- The wrapper around `batteryLog`. -/
def batteryWrapper : DJILogWrapper := { inner := batteryLog }

/-- A record section whose first record declares five payload bytes while
none remain: a structural bounds violation. -/
def badRecordBytes : List Nat := [1, 5]

/-- A log whose Prefix and Info parsed fine but whose record section is
the bounds-violating `badRecordBytes`. -/
def badLog : DJILog :=
  { version := 13, details := parseInfo [], recordBytes := badRecordBytes }

/-- The wrapper around `badLog`. -/
def badWrapper : DJILogWrapper := { inner := badLog }

/-- The records decoded from `sampleRecordBytes` with keychains omitted. -/
def sampleRecords : List Record :=
  [.rc [10, 0, 20, 0, 30, 0, 40, 0], .keyStorage [1, 2, 9, 9], .osd [], .unknown 99 [5]]

/-- The record wrappers that `records()` produces from `sampleLog` with
keychains omitted. -/
def sampleRecordWrappers : List RecordWrapper :=
  [{ record_type := "RC [10, 0, 20, 0, 30, 0, 40, 0]", timestamp := 0, data := [] },
   { record_type := "KeyStorage [1, 2, 9, 9]", timestamp := 0, data := [] },
   { record_type := "Osd []", timestamp := 0, data := [] },
   { record_type := "Unknown 99 [5]", timestamp := 0, data := [] }]

/-- The single frame normalized out of `sampleLog`: the RC update merged
into the frame emitted at the OSD tick. -/
def sampleFrame : Frame :=
  { rc := { aileron := 10, elevator := 20, throttle := 30, rudder := 40 } }

/-- The single frame normalized out of `batteryLog`: the battery update,
three cell voltages included, merged into the frame emitted at the OSD
tick. -/
def batteryFrame : Frame :=
  { battery := { charge_level := 90, voltage := 1, current := 2, temperature := 3,
                 cell_voltages := [81, 82, 83] } }

/-- The emptiness test on the cell-voltage sequence in `frameToWrapper`
is the identity on both branches. -/
theorem isEmpty_if_id (l : List Int) : (if l.isEmpty then [] else l) = l := by
  cases l <;> rfl

/-- The Rust `as u16` narrowing, as modelled by `u16cast`, is exactly
reduction modulo 2^16: the result is below 2^16 and congruent to the
input. -/
theorem u16cast_spec (i : Int) : ((u16cast i : Nat) : Int) = i % 65536 ∧ u16cast i < 65536 := by
  unfold u16cast
  have h1 : 0 ≤ i % 65536 := Int.emod_nonneg _ (by norm_num)
  have h2 : i % 65536 < 65536 := Int.emod_lt_of_pos _ (by norm_num)
  omega

/-- C5: `u32_to_feature_point` is total — every wire code outside 1..15
falls to `BaseFeature`, and codes 1 through 15 select the fifteen feature
variants in order. -/
theorem c5_u32_to_feature_point_total :
    (∀ n : Nat, n = 0 ∨ 15 < n → u32_to_feature_point n = .BaseFeature) ∧
    u32_to_feature_point 1 = .BaseFeature ∧
    u32_to_feature_point 2 = .VisionFeature ∧
    u32_to_feature_point 3 = .WaypointFeature ∧
    u32_to_feature_point 4 = .AgricultureFeature ∧
    u32_to_feature_point 5 = .AirLinkFeature ∧
    u32_to_feature_point 6 = .AfterSalesFeature ∧
    u32_to_feature_point 7 = .DJIFlyCustomFeature ∧
    u32_to_feature_point 8 = .PlaintextFeature ∧
    u32_to_feature_point 9 = .FlightHubFeature ∧
    u32_to_feature_point 10 = .GimbalFeature ∧
    u32_to_feature_point 11 = .RCFeature ∧
    u32_to_feature_point 12 = .CameraFeature ∧
    u32_to_feature_point 13 = .BatteryFeature ∧
    u32_to_feature_point 14 = .FlySafeFeature ∧
    u32_to_feature_point 15 = .SecurityFeature := by
  refine ⟨?_, rfl, rfl, rfl, rfl, rfl, rfl, rfl, rfl, rfl, rfl, rfl, rfl, rfl, rfl, rfl⟩
  intro n hn
  rcases hn with h | h
  · subst h; rfl
  · obtain ⟨k, rfl⟩ : ∃ k, n = k + 16 := ⟨n - 16, by omega⟩
    rfl

/-- Witness for C5 at the out-of-range codes 0 and 16. -/
theorem c5_witness :
    u32_to_feature_point 0 = .BaseFeature ∧ u32_to_feature_point 16 = .BaseFeature :=
  ⟨c5_u32_to_feature_point_total.1 0 (Or.inl rfl),
   c5_u32_to_feature_point_total.1 16 (Or.inr (by norm_num))⟩

/-- C6: the two enum conversions used by `details()` are total functions
that map every value outside the explicitly listed variants to the
`Unknown` wrapper variant rather than failing. -/
theorem c6_enum_conversions_total :
    (∀ p : Platform,
      p ∉ [Platform.IOS, Platform.Android, Platform.DJIFly, Platform.Windows,
           Platform.Mac, Platform.Linux] →
      platformToWrapper p = .Unknown) ∧
    (∀ pt : ProductType,
      pt ∉ [ProductType.None, ProductType.Inspire1, ProductType.Phantom3Standard,
            ProductType.Phantom3Advanced, ProductType.Phantom3Pro, ProductType.OSMO,
            ProductType.Matrice100, ProductType.Phantom4, ProductType.LB2,
            ProductType.Inspire1Pro, ProductType.A3, ProductType.Matrice600,
            ProductType.Phantom34K, ProductType.MavicPro, ProductType.ZenmuseXT] →
      productTypeToWrapper pt = .Unknown) := by
  constructor
  · intro p hp
    cases p <;> simp_all [platformToWrapper]
  · intro pt hpt
    cases pt <;> simp_all [productTypeToWrapper]

/-- Witness for C6 at the unmapped platform value and an unmapped device
code. -/
theorem c6_witness :
    platformToWrapper Platform.unknown = PlatformWrapper.Unknown ∧
    productTypeToWrapper (ProductType.other 99) = ProductTypeWrapper.Unknown :=
  ⟨c6_enum_conversions_total.1 Platform.unknown (by decide),
   c6_enum_conversions_total.2 (ProductType.other 99) (by decide)⟩

/-- C8: `from_bytes` is total with the single error kind `ParseError` —
it returns either a fully constructed wrapper or `ParseError`, and any
buffer shorter than the minimum Prefix size yields `ParseError`. -/
theorem c8_from_bytes_total_parse_error (bytes : List Nat) :
    ((∃ w, DJILogWrapper.from_bytes bytes = .ok w) ∨
      DJILogWrapper.from_bytes bytes = .error .ParseError) ∧
    (bytes.length < minPrefixSize → DJILogWrapper.from_bytes bytes = .error .ParseError) := by
  constructor
  · unfold DJILogWrapper.from_bytes
    cases DJILog.from_bytes bytes with
    | ok log => exact Or.inl ⟨{ inner := log }, rfl⟩
    | error e => exact Or.inr rfl
  · intro h
    unfold DJILogWrapper.from_bytes DJILog.from_bytes
    rw [if_pos h]

/-- Witness for C8 at a three-byte buffer, shorter than the Prefix. -/
theorem c8_witness : DJILogWrapper.from_bytes [1, 2, 3] = .error .ParseError :=
  (c8_from_bytes_total_parse_error [1, 2, 3]).2 (by norm_num [minPrefixSize])

/-- C9: the five exposed operations are pure queries of the immutable
parsed log — in this embedding they are functions of the log value alone,
so two calls on equal logs with equal keychain arguments return equal
results and no caller-visible state exists to mutate. -/
theorem c9_pure_queries (a b : DJILogWrapper)
    (ks ks' : Option (List (List KeychainFeaturePointWrapper)))
    (hlog : a = b) (hks : ks = ks') :
    a.version = b.version ∧ a.details = b.details ∧
    a.keychains_request = b.keychains_request ∧
    a.records ks = b.records ks' ∧ a.frames ks = b.frames ks' := by
  subst hlog; subst hks
  exact ⟨rfl, rfl, rfl, rfl, rfl⟩

/-- Witness for C9 at the sample wrapper with the keychains argument
omitted. -/
theorem c9_witness :
    sampleWrapper.version = sampleWrapper.version ∧
    sampleWrapper.details = sampleWrapper.details ∧
    sampleWrapper.keychains_request = sampleWrapper.keychains_request ∧
    sampleWrapper.records none = sampleWrapper.records none ∧
    sampleWrapper.frames none = sampleWrapper.frames none :=
  c9_pure_queries sampleWrapper sampleWrapper none none rfl rfl

/-- `List.getD` commutes with `List.map` when the defaults correspond. -/
theorem getD_map_eq {α β : Type} (f : α → β) (l : List α) (d : α) :
    ∀ i, (l.map f).getD i (f d) = f (l.getD i d) := by
  intro i
  induction l generalizing i with
  | nil => cases i <;> rfl
  | cons a t ih => cases i with
    | zero => rfl
    | succ k => exact ih k

/-- C1: `keychains_request` preserves the group structure of the inner
request — the wrapper result exists exactly when the inner one does, with
the same number of groups, the same cardinality per group, each
ciphertext preserved byte-for-byte, and version and department copied
unchanged. -/
theorem c1_keychains_request_group_integrity (self : DJILogWrapper)
    (req : KeychainsRequest) (h : self.inner.keychains_request = .ok req) :
    self.keychains_request = .ok
      { version := req.version, department := req.department,
        keychains := req.keychains.map (List.map encodedPointToWrapper) } ∧
    ∀ w, self.keychains_request = .ok w →
      w.version = req.version ∧ w.department = req.department ∧
      w.keychains.length = req.keychains.length ∧
      (∀ i, (w.keychains.getD i []).length = (req.keychains.getD i []).length) ∧
      (∀ i j,
        ((w.keychains.getD i []).getD j
          (encodedPointToWrapper { feature_point := .BaseFeature, aes_ciphertext := [] })).aes_ciphertext =
        ((req.keychains.getD i []).getD j
          { feature_point := .BaseFeature, aes_ciphertext := [] }).aes_ciphertext) := by
  have hw : self.keychains_request = .ok
      { version := req.version, department := req.department,
        keychains := req.keychains.map (List.map encodedPointToWrapper) } := by
    unfold DJILogWrapper.keychains_request
    rw [h]
  refine ⟨hw, ?_⟩
  intro w hw2
  rw [hw] at hw2
  injection hw2 with hw2
  subst hw2
  have houter : ∀ i, (req.keychains.map (List.map encodedPointToWrapper)).getD i [] =
      List.map encodedPointToWrapper (req.keychains.getD i []) := by
    intro i
    have := getD_map_eq (List.map encodedPointToWrapper) req.keychains [] i
    simpa using this
  refine ⟨rfl, rfl, by simp, ?_, ?_⟩
  · intro i
    rw [houter i, List.length_map]
  · intro i j
    rw [houter i, getD_map_eq encodedPointToWrapper _ _ j]
    rfl


/-- Witness for C1 at the sample log, whose KeyStorage data yields one
group with one ciphertext entry. -/
theorem c1_witness :
    sampleWrapper.keychains_request = .ok
      { version := sampleRequest.version, department := sampleRequest.department,
        keychains := sampleRequest.keychains.map (List.map encodedPointToWrapper) } :=
  (c1_keychains_request_group_integrity sampleWrapper sampleRequest rfl).1

/-- C2: every `RecordWrapper` returned by `records()` carries timestamp 0
and an empty data vector; its only record-specific content is the Debug
rendering of the decoded record. -/
theorem c2_records_simplified_fields (self : DJILogWrapper)
    (keychains : Option (List (List KeychainFeaturePointWrapper)))
    (out : List RecordWrapper) (h : self.records keychains = .ok out) :
    ∃ rs, self.inner.records (convertKeychains keychains) = .ok rs ∧
      out = rs.map recordToWrapper ∧
      ∀ w ∈ out, w.timestamp = 0 ∧ w.data = [] ∧ ∃ r ∈ rs, w.record_type = recordDebug r := by
  unfold DJILogWrapper.records at h
  split at h
  · cases h
  · rename_i rs hin
    injection h with h
    subst h
    refine ⟨rs, hin, rfl, ?_⟩
    intro w hw
    simp only [List.mem_map] at hw
    obtain ⟨r, hr, rfl⟩ := hw
    exact ⟨rfl, rfl, r, hr, rfl⟩

/-- Witness for C2 at the sample log with keychains omitted. -/
theorem c2_witness :
    ∃ rs, sampleWrapper.inner.records (convertKeychains none) = .ok rs ∧
      (sampleRecordWrappers = rs.map recordToWrapper) ∧
      ∀ w ∈ sampleRecordWrappers,
        w.timestamp = 0 ∧ w.data = [] ∧ ∃ r ∈ rs, w.record_type = recordDebug r :=
  c2_records_simplified_fields sampleWrapper none sampleRecordWrappers rfl

/-- C3: whenever `frames()` fails, the reported kind is `FrameError` —
every underlying failure of the frame pipeline (which can only originate
in record decoding, since normalization is total) is collapsed to
`FrameError`, and no other error kind can escape. -/
theorem c3_frames_error_is_frame_error (self : DJILogWrapper)
    (keychains : Option (List (List KeychainFeaturePointWrapper))) :
    (∀ e, self.frames keychains = .error e → e = .FrameError) ∧
    (∀ er, self.inner.frames (convertKeychains keychains) = .error er →
      self.frames keychains = .error .FrameError) := by
  constructor
  · intro e h
    unfold DJILogWrapper.frames at h
    split at h
    · injection h with h
      exact h.symm
    · cases h
  · intro er hin
    unfold DJILogWrapper.frames
    rw [hin]

/-- Witness for C3 at the bounds-violating log, whose record decoding
fails and surfaces as `FrameError`. -/
theorem c3_witness : badWrapper.frames none = .error .FrameError :=
  (c3_frames_error_is_frame_error badWrapper none).2 () rfl

/-- C7: the `cell_voltages` field of every frame returned by `frames()`
is the underlying frame's cell-voltage sequence element for element, and
an empty underlying sequence yields an empty sequence, not an error. -/
theorem c7_cell_voltages_verbatim (self : DJILogWrapper)
    (keychains : Option (List (List KeychainFeaturePointWrapper)))
    (fs : List Frame) (h : self.inner.frames (convertKeychains keychains) = .ok fs) :
    self.frames keychains = .ok (fs.map frameToWrapper) ∧
    ∀ f ∈ fs,
      (frameToWrapper f).cell_voltages = f.battery.cell_voltages ∧
      (f.battery.cell_voltages = [] → (frameToWrapper f).cell_voltages = []) := by
  constructor
  · unfold DJILogWrapper.frames
    rw [h]
  · intro f _
    have hcv : (frameToWrapper f).cell_voltages = f.battery.cell_voltages := by
      simp only [frameToWrapper]
      exact isEmpty_if_id f.battery.cell_voltages
    exact ⟨hcv, fun he => by rw [hcv, he]⟩

/-- Witness for C7 at the battery log, whose single frame carries three
cell voltages. -/
theorem c7_witness :
    batteryWrapper.frames none = .ok ([batteryFrame].map frameToWrapper) ∧
    (frameToWrapper batteryFrame).cell_voltages = batteryFrame.battery.cell_voltages := by
  have h := c7_cell_voltages_verbatim batteryWrapper none [batteryFrame] rfl
  exact ⟨h.1, (h.2 batteryFrame (by simp)).1⟩

/-- C10: the four RC stick-axis fields of every frame returned by
`frames()` are the underlying values reduced modulo 2^16 by the unsigned
narrowing cast — each output is below 2^16 and equals the underlying
value's residue. -/
theorem c10_rc_u16_narrowing (self : DJILogWrapper)
    (keychains : Option (List (List KeychainFeaturePointWrapper)))
    (fs : List Frame) (h : self.inner.frames (convertKeychains keychains) = .ok fs) :
    self.frames keychains = .ok (fs.map frameToWrapper) ∧
    ∀ f ∈ fs,
      (((frameToWrapper f).aileron : Nat) : Int) = f.rc.aileron % 65536 ∧
      (((frameToWrapper f).elevator : Nat) : Int) = f.rc.elevator % 65536 ∧
      (((frameToWrapper f).throttle : Nat) : Int) = f.rc.throttle % 65536 ∧
      (((frameToWrapper f).rudder : Nat) : Int) = f.rc.rudder % 65536 ∧
      (frameToWrapper f).aileron < 65536 ∧ (frameToWrapper f).elevator < 65536 ∧
      (frameToWrapper f).throttle < 65536 ∧ (frameToWrapper f).rudder < 65536 := by
  constructor
  · unfold DJILogWrapper.frames
    rw [h]
  · intro f _
    exact ⟨(u16cast_spec f.rc.aileron).1, (u16cast_spec f.rc.elevator).1,
           (u16cast_spec f.rc.throttle).1, (u16cast_spec f.rc.rudder).1,
           (u16cast_spec f.rc.aileron).2, (u16cast_spec f.rc.elevator).2,
           (u16cast_spec f.rc.throttle).2, (u16cast_spec f.rc.rudder).2⟩

/-- Witness for C10 at the sample log, whose single frame carries the RC
values 10, 20, 30, 40. -/
theorem c10_witness :
    sampleWrapper.frames none = .ok ([sampleFrame].map frameToWrapper) ∧
    (((frameToWrapper sampleFrame).aileron : Nat) : Int) = sampleFrame.rc.aileron % 65536 := by
  have h := c10_rc_u16_narrowing sampleWrapper none [sampleFrame] rfl
  exact ⟨h.1, (h.2 sampleFrame (by simp)).1⟩

/-- Whether `records` succeeds is decided entirely by the structural
framing walk of the record section, never by the keychain argument. -/
theorem records_isOk_eq (self : DJILogWrapper)
    (keychains : Option (List (List KeychainFeaturePointWrapper))) :
    (self.records keychains).isOk = (frameRecords self.inner.recordBytes).isOk := by
  unfold DJILogWrapper.records DJILog.records
  cases frameRecords self.inner.recordBytes <;> rfl

/-- Dispatching a framed record sequence without keychains yields an
order-preserving subsequence of any dispatch with keychains: the only
difference is that encrypted records that would decode through a keychain
entry are absent. -/
theorem decodeFramed_none_sublist (chains : List (List KeychainFeaturePoint)) :
    ∀ (framed : List (Nat × List Nat)) (g : Nat),
      (decodeFramed none g framed).Sublist (decodeFramed (some chains) g framed) := by
  intro framed
  induction framed with
  | nil => intro g; simp [decodeFramed]
  | cons hd tl ih =>
    intro g
    obtain ⟨tag, payload⟩ := hd
    cases hpl : plainRecord tag payload with
    | some r =>
      simp only [decodeFramed, hpl]
      exact List.Sublist.cons₂ r (ih _)
    | none =>
      by_cases henc : isEncryptedTag tag = true
      · simp only [decodeFramed, hpl, henc, if_true]
        have hnone : decodeEncrypted none g tag payload = none := by
          cases payload <;> rfl
        rw [hnone]
        cases hde : decodeEncrypted (some chains) g tag payload with
        | none => exact ih _
        | some r => exact List.Sublist.cons r (ih _)
      · simp only [decodeFramed, hpl, henc, if_false]
        exact List.Sublist.cons₂ _ (ih _)

/-- C4 counterexample: the claim fails as stated.  The buffer below
parses into a log (magic, version and offsets are all valid), yet
`records` with keychains omitted returns `RecordError`, because the
record section declares a five-byte record with no payload bytes left —
a structural bounds violation that has nothing to do with keychains. -/
theorem c4_counterexample :
    (DJILogWrapper.from_bytes [77, 13, 6, 0, 6, 2, 1, 5]).map
      (fun log => log.records none) = .ok (.error DJIError.RecordError) := rfl

/-- C4 (amended): with keychains omitted, `records` never fails *because
of the missing keychains* — it succeeds exactly when decoding with any
supplied keychains succeeds (failures are structural bounds violations,
identical in both runs); on success the encrypted records are simply
absent, leaving an order-preserving subsequence of the keychain-assisted
output; and `frames` with keychains omitted returns the frame sequence
normalized from the non-encrypted records. -/
theorem c4_graceful_degradation (self : DJILogWrapper)
    (ksw : List (List KeychainFeaturePointWrapper)) :
    ((self.records none).isOk ↔ (self.records (some ksw)).isOk) ∧
    (∀ rs rs', self.records none = .ok rs → self.records (some ksw) = .ok rs' →
      rs.Sublist rs') ∧
    (∀ rs, self.inner.records none = .ok rs →
      self.frames none = .ok ((normalizeRecords rs).map frameToWrapper)) := by
  refine ⟨?_, ?_, ?_⟩
  · rw [records_isOk_eq self none, records_isOk_eq self (some ksw)]
  · intro rs rs' h1 h2
    unfold DJILogWrapper.records at h1 h2
    split at h1
    · cases h1
    · rename_i rs1 hin1
      injection h1 with h1
      split at h2
      · cases h2
      · rename_i rs2 hin2
        injection h2 with h2
        subst h1
        subst h2
        unfold DJILog.records at hin1 hin2
        cases hfr : frameRecords self.inner.recordBytes with
        | error e =>
          rw [hfr] at hin1
          cases hin1
        | ok framed =>
          rw [hfr] at hin1 hin2
          injection hin1 with hin1
          injection hin2 with hin2
          subst hin1
          subst hin2
          exact List.Sublist.map recordToWrapper (decodeFramed_none_sublist _ framed 0)
  · intro rs h
    have hin : self.inner.frames (convertKeychains none) = .ok (normalizeRecords rs) := by
      unfold DJILog.frames
      have hc : convertKeychains none = none := rfl
      rw [hc, h]
      rfl
    unfold DJILogWrapper.frames
    rw [hin]

/-- Witness for C4 at the sample log: both runs succeed, the
keychain-free output is a subsequence of the keychain-assisted one, and
the frame sequence is the normalization of the decoded records. -/
theorem c4_witness :
    ((sampleWrapper.records none).isOk ↔ (sampleWrapper.records (some [[]])).isOk) ∧
    sampleRecordWrappers.Sublist sampleRecordWrappers ∧
    sampleWrapper.frames none = .ok ((normalizeRecords sampleRecords).map frameToWrapper) := by
  have h := c4_graceful_degradation sampleWrapper [[]]
  exact ⟨h.1, h.2.1 sampleRecordWrappers sampleRecordWrappers rfl rfl, h.2.2 sampleRecords rfl⟩
